import Mathlib

/-
Verification of the POSSystems server (Express + MongoDB storage layer).

The embedding models the persistent store as explicit Lean structures and
the storage / route-handler functions of `src/server/mongodb-storage.ts`,
`src/server/auth.ts` and the route registration file (src/unnamed/part_006)
as pure state-passing functions.  MongoDB `find?`/`updateOne`/
`findOneAndUpdate`/`deleteOne` act on the first document matching the
filter; collections are modelled as lists in insertion order.  JavaScript
numbers used for stock and quantities are modelled as `Int` (`parseInt` can
yield negative values); money amounts travel as decimal strings exactly as
they do through the JSON API (the `decimal` columns of shared/schema.ts are
strings at runtime).  `Date` timestamps are modelled as `Nat` clock values
passed explicitly to the operations that read the clock.
-/

namespace POSSpec

/-- A POS business record (posSystems collection, shared/schema.ts `posSystems`
and `MongoDBStorage.createPOSSystem`). -/
structure POSSystem where
  id : String
  businessName : String
  contactEmail : String
  username : String
  password : String
  status : String
  currencySymbol : String
  businessAddress : String
  businessPhone : String
  receiptFooter : String
  taxRate : String
  createdAt : Nat
  approvedAt : Option Nat
  approvedBy : Option String
deriving DecidableEq

/-- A product record (products collection, shared/schema.ts `products`).
`stock` is a JavaScript number, modelled as `Int` since the server passes
`parseInt(stock)` through without a sign check. -/
structure Product where
  id : String
  posId : String
  name : String
  price : String
  category : String
  stock : Int
  image : Option String
  isActive : String
deriving DecidableEq

/-- A cart line item ({productId, name, price, quantity} inside the `items`
jsonb column).  The client unit price is a two-decimal-place amount; it is
modelled exactly in cents (`priceCents`). -/
structure TransactionItem where
  productId : String
  name : String
  priceCents : Int
  quantity : Int
deriving DecidableEq

/-- A transaction record (transactions collection, shared/schema.ts
`transactions`).  `subtotal`, `tax`, `total` are decimal strings. -/
structure Transaction where
  id : String
  posId : String
  receiptNumber : String
  items : List TransactionItem
  subtotal : String
  tax : String
  total : String
  paymentMethod : String
  createdAt : Nat
deriving DecidableEq

/-- The persistent store: the three MongoDB collections the claims are
about (admin users are not needed: admin identity enters only as an id). -/
structure Store where
  posSystems : List POSSystem
  products : List Product
  transactions : List Transaction
deriving DecidableEq

/-- MongoDB `updateOne` / `findOneAndUpdate` update semantics: apply `f` to
the first element matching the filter `m`, leave everything else alone. -/
def updateOne {α : Type} (l : List α) (m : α → Bool) (f : α → α) : List α :=
  match l with
  | [] => []
  | x :: xs => if m x then f x :: xs else x :: updateOne xs m f

/-- MongoDB `deleteOne`: remove the first element matching the filter,
returning the remaining list and whether anything was deleted. -/
def deleteOne {α : Type} (l : List α) (m : α → Bool) : List α × Bool :=
  match l with
  | [] => ([], false)
  | x :: xs =>
    if m x then (xs, true)
    else
      let r := deleteOne xs m
      (x :: r.1, r.2)

/-- `MongoDBStorage.getPOSSystem`: `posSystems.findOne({id})`. -/
def getPOSSystem (s : Store) (id : String) : Option POSSystem :=
  s.posSystems.find? (fun x => x.id == id)

/-- `MongoDBStorage.getPOSSystemByUsername`: `posSystems.findOne({username})`. -/
def getPOSSystemByUsername (s : Store) (username : String) : Option POSSystem :=
  s.posSystems.find? (fun x => x.username == username)

/-- The `$set` document built by `MongoDBStorage.updatePOSSystemStatus` when
`status === 'approved'`: sets status, `approvedAt = new Date()` and
`approvedBy` to the (optional) argument — `undefined` is stored as null,
modelled by `Option`. -/
def approveUpdate (approvedBy : Option String) (now : Nat) (sys : POSSystem) : POSSystem :=
  { sys with status := "approved", approvedAt := some now, approvedBy := approvedBy }

/-- The `$set` document built by `MongoDBStorage.updatePOSSystemStatus` when
`status === 'rejected'`: sets status and clears approvedAt/approvedBy. -/
def rejectUpdate (sys : POSSystem) : POSSystem :=
  { sys with status := "rejected", approvedAt := none, approvedBy := none }

/-- `MongoDBStorage.updatePOSSystemStatus(id, status, approvedBy?)`:
`findOneAndUpdate({id}, {$set: update}, {returnDocument: 'after'})` where
`update` depends on the status string. -/
def updatePOSSystemStatus (s : Store) (id status : String) (approvedBy : Option String)
    (now : Nat) : Store × Option POSSystem :=
  let f : POSSystem → POSSystem :=
    if status = "approved" then approveUpdate approvedBy now
    else if status = "rejected" then rejectUpdate
    else fun sys => { sys with status := status }
  match s.posSystems.find? (fun x => x.id == id) with
  | none => (s, none)
  | some sys =>
    ({ s with posSystems := updateOne s.posSystems (fun x => x.id == id) f }, some (f sys))

/-- `MongoDBStorage.deletePOSSystem`: `posSystems.deleteOne({id})`; returns
`deletedCount > 0`.  (It touches only the posSystems collection.) -/
def deletePOSSystem (s : Store) (id : String) : Store × Bool :=
  let r := deleteOne s.posSystems (fun x => x.id == id)
  ({ s with posSystems := r.1 }, r.2)

/-- `MongoDBStorage.getProduct`: `products.findOne({id})`. -/
def getProduct (s : Store) (id : String) : Option Product :=
  s.products.find? (fun x => x.id == id)

/-- `MongoDBStorage.updateProductStock(productId, newStock)`:
`findOneAndUpdate({id}, {$set: {stock: newStock}}, {returnDocument:'after'})`.
No sign check is performed on `newStock`. -/
def updateProductStock (s : Store) (productId : String) (newStock : Int) :
    Store × Option Product :=
  match s.products.find? (fun x => x.id == productId) with
  | none => (s, none)
  | some p =>
    ({ s with
        products := updateOne s.products (fun x => x.id == productId)
          (fun x => { x with stock := newStock }) },
      some { p with stock := newStock })

/-- `MongoDBStorage.reduceProductStock(productId, quantity)`:
`updateOne({id: productId, stock: {$gte: quantity}}, {$inc: {stock: -quantity}})`,
returning `modifiedCount > 0`.  A document counts as modified only if the
update actually changed it, so an `$inc` by `0` matches but reports
`modifiedCount = 0`. -/
def reduceProductStock (s : Store) (productId : String) (quantity : Int) : Store × Bool :=
  match s.products.find? (fun x => x.id == productId && decide (quantity ≤ x.stock)) with
  | none => (s, false)
  | some _ =>
    ({ s with
        products := updateOne s.products
          (fun x => x.id == productId && decide (quantity ≤ x.stock))
          (fun x => { x with stock := x.stock - quantity }) },
      quantity != 0)

/-- `MongoDBStorage.createTransaction`: insert with generated id and
`createdAt = new Date()` (id generation modelled by the explicit `id`
field already present on the argument). -/
def createTransaction (s : Store) (t : Transaction) : Store × Transaction :=
  ({ s with transactions := s.transactions ++ [t] }, t)

/-- Outcome of the passport "pos" LocalStrategy (src/server/auth.ts):
either a principal (the logged-in business id) or a failure message. -/
inductive LoginResult where
  | success (id : String)
  | failure (message : String)
deriving DecidableEq

/-- The passport "pos" LocalStrategy (src/server/auth.ts, `setupAuth`):
looks the business up by username, rejects unless `status === "approved"`,
then compares passwords.  The scrypt-based `comparePasswords` is abstracted
as the `compare supplied stored` parameter; the structure of the strategy
(in particular that the status gate precedes the password check) is exactly
the source's. -/
def posLogin (compare : String → String → Bool) (s : Store) (username password : String) :
    LoginResult :=
  match getPOSSystemByUsername s username with
  | none => LoginResult.failure "Invalid username or password"
  | some sys =>
    if sys.status != "approved" then LoginResult.failure "POS system not approved"
    else if compare password sys.password then LoginResult.success sys.id
    else LoginResult.failure "Invalid username or password"

/-- `passport.deserializeUser` for `userType === "pos"` (src/server/auth.ts):
re-resolves the principal from the store on every request and yields it only
while `status === "approved"`; otherwise the request is deauthenticated
(`done(null, false)`, modelled as `none`). -/
def deserializePOSUser (s : Store) (id : String) : Option POSSystem :=
  match getPOSSystem s id with
  | none => none
  | some sys => if sys.status == "approved" then some sys else none

/-- POST /api/admin/pos-systems/:id/approve (src/unnamed/part_006):
`updatePOSSystemStatus(id, "approved", req.user?.id)`. -/
def approvePOSSystem (s : Store) (id adminId : String) (now : Nat) :
    Store × Option POSSystem :=
  updatePOSSystemStatus s id "approved" (some adminId) now

/-- PUT /api/pos/products/:id/stock (src/unnamed/part_006): ownership check
against the authenticated business, then `updateProductStock(productId,
parseInt(stock))`.  `newStock` is the already-parsed integer; the handler
performs no non-negativity validation on it. -/
def putProductStock (s : Store) (principalId productId : String) (newStock : Int) :
    Store × Option Product :=
  match getProduct s productId with
  | none => (s, none)
  | some p =>
    if p.posId == principalId then updateProductStock s productId newStock
    else (s, none)

/-- The request body of POST /api/pos/transactions after
`insertTransactionSchema.parse({...req.body, posId: req.user?.id})`: the
client may supply its own `posId` (kept here to model that the spread
`...req.body` is overwritten), receipt number, items and money strings. -/
structure CheckoutRequest where
  posId : Option String
  receiptNumber : String
  items : List TransactionItem
  subtotal : String
  tax : String
  total : String
  paymentMethod : String
deriving DecidableEq

/-- Outcome of POST /api/pos/transactions: the 201 response with the
persisted transaction, or the 400 "Insufficient stock for product: name"
response. -/
inductive CheckoutResult where
  | created (t : Transaction)
  | insufficientStock (productName : String)
deriving DecidableEq

/-- The transaction document persisted by the checkout route: every field of
the parsed body is passed through to `createTransaction` unchanged, except
that `posId` is overwritten with the authenticated principal's id; the store
adds the generated `id` and `createdAt`. -/
def mkTransaction (principalId : String) (body : CheckoutRequest) (txId : String)
    (now : Nat) : Transaction :=
  { id := txId, posId := principalId, receiptNumber := body.receiptNumber,
    items := body.items, subtotal := body.subtotal, tax := body.tax,
    total := body.total, paymentMethod := body.paymentMethod, createdAt := now }

/-- The `for (const item of items)` loop of POST /api/pos/transactions: call
`reduceProductStock` for each item in order; stop at the first failure and
report that item's name.  No rollback of earlier decrements is performed. -/
def processItems (s : Store) : List TransactionItem → Store × Option String
  | [] => (s, none)
  | it :: rest =>
    let r := reduceProductStock s it.productId it.quantity
    if r.2 then processItems r.1 rest else (r.1, some it.name)

/-- POST /api/pos/transactions (src/unnamed/part_006): parse the body with
the principal's `posId` substituted, run the stock-decrement loop, and on
success persist the transaction.  On failure respond 400 naming the
offending product, with the loop's store state left as is. -/
def postTransaction (s : Store) (principalId : String) (body : CheckoutRequest)
    (txId : String) (now : Nat) : Store × CheckoutResult :=
  let r := processItems s body.items
  match r.2 with
  | some nm => (r.1, CheckoutResult.insufficientStock nm)
  | none =>
    let tr := createTransaction r.1 (mkTransaction principalId body txId now)
    (tr.1, CheckoutResult.created tr.2)

/-- Outcome of PUT /api/pos/currency: 200, 400 "Currency symbol is
required", or 404 "POS system not found". -/
inductive CurrencyResult where
  | ok
  | required
  | notFound
deriving DecidableEq

/-- JavaScript `String.prototype.trim`: strip leading and trailing
whitespace (executable model of `String.trim`). -/
def trimJS (s : String) : String :=
  String.mk (((s.data.dropWhile Char.isWhitespace).reverse.dropWhile Char.isWhitespace).reverse)

/-- PUT /api/pos/currency (src/unnamed/part_006): validates the supplied
symbol is non-empty, looks the business up, then calls
`updatePOSSystemStatus(posId, system.status)` — the supplied
`currencySymbol` is never passed to the store — and responds
"Currency symbol updated successfully". -/
def putCurrency (s : Store) (principalId currencySymbol : String) (now : Nat) :
    Store × CurrencyResult :=
  if trimJS currencySymbol = "" then (s, CurrencyResult.required)
  else
    match getPOSSystem s principalId with
    | none => (s, CurrencyResult.notFound)
    | some sys =>
      ((updatePOSSystemStatus s principalId sys.status none now).1, CurrencyResult.ok)

/-- Helper for stating what checkout's loop does to the store up to a given
point: apply the conditional decrements of a list of items in order,
keeping only the store. -/
def applyDecrements (s : Store) : List TransactionItem → Store
  | [] => s
  | it :: rest => applyDecrements (reduceProductStock s it.productId it.quantity).1 rest

/-- Helper: all the conditional decrements of a list of items succeed when
applied in order from the given store. -/
def decrementsSucceed (s : Store) : List TransactionItem → Bool
  | [] => true
  | it :: rest =>
    let r := reduceProductStock s it.productId it.quantity
    r.2 && decrementsSucceed r.1 rest

/-- Follows the spec's words (refinement reference, not source code):
`subtotal = Σ(unitPrice × quantity)` over the line items, computed exactly
in cents. -/
def specSubtotalCents (items : List TransactionItem) : Int :=
  items.foldl (fun acc it => acc + it.priceCents * it.quantity) 0

/-- Follows the spec's words (refinement reference, not source code):
render a non-negative amount of cents as a decimal string with exactly two
fraction digits, the format in which money is persisted. -/
def moneyStringOfCents (c : Int) : String :=
  let n := c.toNat
  let frac := n % 100
  toString (n / 100) ++ "." ++ (if frac < 10 then "0" ++ toString frac else toString frac)

/-! Concrete fixtures used to instantiate the theorems: a small store in the
shape the application produces (one approved business owning two products,
an append-only transaction ledger). -/

/-- Fixture: an approved business as stored after approval. -/
def bizApproved : POSSystem :=
  { id := "b1", businessName := "Cafe A", contactEmail := "cafe@example.com",
    username := "biz", password := "hashedpw", status := "approved",
    currencySymbol := "P", businessAddress := "", businessPhone := "",
    receiptFooter := "Thanks", taxRate := "8.5", createdAt := 0,
    approvedAt := some 1, approvedBy := some "admin-1" }

/-- Fixture: the same business while still pending (as `createPOSSystem`
stores it). -/
def bizPending : POSSystem :=
  { bizApproved with status := "pending", approvedAt := none, approvedBy := none }

/-- Fixture: a product with 5 units in stock owned by `bizApproved`. -/
def prodA : Product :=
  { id := "pA", posId := "b1", name := "ProductA", price := "4.00",
    category := "General", stock := 5, image := none, isActive := "true" }

/-- Fixture: an out-of-stock product owned by `bizApproved`. -/
def prodB : Product :=
  { id := "pB", posId := "b1", name := "ProductB", price := "2.00",
    category := "General", stock := 0, image := none, isActive := "true" }

/-- Fixture: an already-persisted transaction of `bizApproved`. -/
def txOld : Transaction :=
  { id := "t0", posId := "b1", receiptNumber := "R0",
    items := [{ productId := "pA", name := "ProductA", priceCents := 400, quantity := 1 }],
    subtotal := "4.00", tax := "0.34", total := "4.34", paymentMethod := "cash",
    createdAt := 2 }

/-- Fixture: store with the approved business, both products and one past
transaction. -/
def storeAB : Store :=
  { posSystems := [bizApproved], products := [prodA, prodB], transactions := [txOld] }

/-- Fixture: the same store with the business still pending. -/
def storePending : Store :=
  { storeAB with posSystems := [bizPending] }

/-- Fixture: a checkout body whose second line item exceeds stock, carrying
client-chosen totals and a client-chosen `posId`. -/
def cartAB : CheckoutRequest :=
  { posId := some "someone-else", receiptNumber := "R1",
    items := [ { productId := "pA", name := "ProductA", priceCents := 400, quantity := 2 },
               { productId := "pB", name := "ProductB", priceCents := 200, quantity := 1 } ],
    subtotal := "10.00", tax := "0.85", total := "10.85", paymentMethod := "cash" }

/-- Fixture: a satisfiable one-line-item checkout body whose client-supplied
totals disagree with the line items (Σ unitPrice×quantity = 4.00). -/
def cartOverpriced : CheckoutRequest :=
  { posId := some "someone-else", receiptNumber := "R2",
    items := [ { productId := "pA", name := "ProductA", priceCents := 400, quantity := 1 } ],
    subtotal := "999.00", tax := "0.00", total := "999.00", paymentMethod := "cash" }

/-- Fixture: a checkout body with an empty cart. -/
def cartEmpty : CheckoutRequest :=
  { posId := none, receiptNumber := "R3", items := [],
    subtotal := "0.00", tax := "0.00", total := "0.00", paymentMethod := "cash" }

/-- Fixture: a one-line-item checkout body used to exercise the principal
substitution (`posId` claims to be another business). -/
def cartForged : CheckoutRequest :=
  { posId := some "victim-business", receiptNumber := "R4",
    items := [ { productId := "pA", name := "ProductA", priceCents := 400, quantity := 1 } ],
    subtotal := "4.00", tax := "0.34", total := "4.34", paymentMethod := "card" }

/-! Helper lemmas about the MongoDB list primitives. -/

/-- Every element of `updateOne l m f` is an untouched element of `l` or the
image under `f` of a matched element of `l`. -/
theorem mem_updateOne {α : Type} (l : List α) (m : α → Bool) (f : α → α) (x : α)
    (hx : x ∈ updateOne l m f) : x ∈ l ∨ ∃ y, y ∈ l ∧ m y = true ∧ x = f y := by
  induction l with
  | nil => simp [updateOne] at hx
  | cons a as ih =>
    rw [updateOne] at hx
    cases hm : m a with
    | true =>
      rw [hm, if_pos rfl] at hx
      rcases List.mem_cons.mp hx with h1 | h1
      · exact Or.inr ⟨a, List.mem_cons_self a as, hm, h1⟩
      · exact Or.inl (List.mem_cons_of_mem _ h1)
    | false =>
      rw [hm, if_neg (by decide)] at hx
      rcases List.mem_cons.mp hx with h1 | h1
      · exact Or.inl (h1 ▸ List.mem_cons_self a as)
      · rcases ih h1 with h2 | ⟨y, hy, hmy, hxy⟩
        · exact Or.inl (List.mem_cons_of_mem _ h2)
        · exact Or.inr ⟨y, List.mem_cons_of_mem _ hy, hmy, hxy⟩

/-- `reduceProductStock` touches only the products collection. -/
theorem reduceProductStock_posSystems (s : Store) (pid : String) (q : Int) :
    (reduceProductStock s pid q).1.posSystems = s.posSystems := by
  unfold reduceProductStock
  split <;> rfl

/-- `reduceProductStock` touches only the products collection. -/
theorem reduceProductStock_transactions (s : Store) (pid : String) (q : Int) :
    (reduceProductStock s pid q).1.transactions = s.transactions := by
  unfold reduceProductStock
  split <;> rfl

/-- `reduceProductStock` preserves non-negativity of every product's stock:
the matched product satisfies the `stock >= quantity` guard, so its new
stock `stock - quantity` is again non-negative whenever the old one was. -/
theorem reduceProductStock_nonneg (s : Store) (pid : String) (q : Int)
    (h : ∀ p ∈ s.products, 0 ≤ p.stock) :
    ∀ p ∈ (reduceProductStock s pid q).1.products, 0 ≤ p.stock := by
  intro p hp
  unfold reduceProductStock at hp
  rcases hfind : s.products.find? (fun x => x.id == pid && decide (q ≤ x.stock)) with _ | y
  · rw [hfind] at hp
    exact h p hp
  · rw [hfind] at hp
    simp only at hp
    rcases mem_updateOne _ _ _ _ hp with h1 | ⟨z, hz, hmz, hpz⟩
    · exact h p h1
    · have hq : q ≤ z.stock := by
        have := (Bool.and_eq_true _ _).mp hmz
        exact of_decide_eq_true this.2
      subst hpz
      simpa using sub_nonneg.mpr hq

/-- The stock-decrement loop of checkout touches only the products
collection. -/
theorem processItems_transactions (items : List TransactionItem) (s : Store) :
    (processItems s items).1.transactions = s.transactions := by
  induction items generalizing s with
  | nil => rfl
  | cons it rest ih =>
    rw [processItems]
    cases hr : (reduceProductStock s it.productId it.quantity).2 with
    | true =>
      rw [if_pos rfl, ih]
      exact reduceProductStock_transactions s it.productId it.quantity
    | false =>
      rw [if_neg (by decide)]
      exact reduceProductStock_transactions s it.productId it.quantity

/-- `deleteOne` reports a deletion exactly when some element matches. -/
theorem deleteOne_snd_iff {α : Type} (l : List α) (m : α → Bool) :
    (deleteOne l m).2 = true ↔ ∃ x ∈ l, m x = true := by
  induction l with
  | nil => simp [deleteOne]
  | cons a as ih =>
    cases hm : m a with
    | true => simp [deleteOne, hm]
    | false => simp [deleteOne, hm, ih]

/-- If the first product with a given id also satisfies the stock guard,
the guarded filter of `reduceProductStock` matches exactly that product. -/
theorem find_guard_of_find_id (l : List Product) (pid : String) (q : Int) (p : Product)
    (h : l.find? (fun x => x.id == pid) = some p) (hq : q ≤ p.stock) :
    l.find? (fun x => x.id == pid && decide (q ≤ x.stock)) = some p := by
  induction l with
  | nil => simp at h
  | cons a as ih =>
    cases hm : (a.id == pid) with
    | true =>
      simp only [List.find?_cons, hm] at h
      injection h with h
      subst h
      simp [List.find?_cons, hm, hq]
    | false =>
      simp only [List.find?_cons, hm] at h
      simp only [List.find?_cons, hm, Bool.false_and]
      exact ih h

/-- After the guarded decrement update, looking the product up by id finds
the decremented document. -/
theorem find_id_updateOne_guard (l : List Product) (pid : String) (q : Int) (p : Product)
    (h : l.find? (fun x => x.id == pid) = some p) (hq : q ≤ p.stock) :
    (updateOne l (fun x => x.id == pid && decide (q ≤ x.stock))
        (fun x => { x with stock := x.stock - q })).find? (fun x => x.id == pid) =
      some { p with stock := p.stock - q } := by
  induction l with
  | nil => simp at h
  | cons a as ih =>
    cases hm : (a.id == pid) with
    | true =>
      simp only [List.find?_cons, hm] at h
      injection h with h
      subst h
      rw [updateOne, if_pos (by simp [hm, hq])]
      simp [List.find?_cons, hm]
    | false =>
      simp only [List.find?_cons, hm] at h
      rw [updateOne, if_neg (by simp [hm])]
      simp only [List.find?_cons, hm]
      exact ih h

/-- After updating the first document with a given id by an id-preserving
function, looking up by that id finds the updated document. -/
theorem find_id_updateOne_pos (l : List POSSystem) (id : String) (f : POSSystem → POSSystem)
    (sys : POSSystem)
    (h : l.find? (fun x => x.id == id) = some sys)
    (hfid : (f sys).id = sys.id) :
    (updateOne l (fun x => x.id == id) f).find? (fun x => x.id == id) = some (f sys) := by
  induction l with
  | nil => simp at h
  | cons a as ih =>
    cases hm : (a.id == id) with
    | true =>
      simp only [List.find?_cons, hm] at h
      injection h with h
      subst h
      rw [updateOne, if_pos hm]
      have : ((f a).id == id) = true := by rw [hfid]; exact hm
      simp [List.find?_cons, this]
    | false =>
      simp only [List.find?_cons, hm] at h
      rw [updateOne, if_neg (by simp [hm])]
      simp only [List.find?_cons, hm]
      exact ih h

/-- After updating the first document with a given id by a
username-preserving function, looking up by the username finds the updated
document, provided the username determines the id among the stored
businesses. -/
theorem find_username_updateOne (l : List POSSystem) (id : String) (f : POSSystem → POSSystem)
    (sys : POSSystem)
    (h : l.find? (fun x => x.id == id) = some sys)
    (huniq : ∀ x ∈ l, x.username = sys.username → x.id = id)
    (hfu : (f sys).username = sys.username) :
    (updateOne l (fun x => x.id == id) f).find? (fun x => x.username == sys.username) =
      some (f sys) := by
  induction l with
  | nil => simp at h
  | cons a as ih =>
    cases hm : (a.id == id) with
    | true =>
      simp only [List.find?_cons, hm] at h
      injection h with h
      subst h
      rw [updateOne, if_pos hm]
      have : ((f a).username == a.username) = true := by rw [hfu]; simp
      simp [List.find?_cons, this]
    | false =>
      simp only [List.find?_cons, hm] at h
      have hau : (a.username == sys.username) = false := by
        rcases hb : (a.username == sys.username) with _ | _
        · rfl
        · have : a.id = id := huniq a (List.mem_cons_self a as) (by simpa using hb)
          simp [this] at hm
      rw [updateOne, if_neg (by simp [hm])]
      simp only [List.find?_cons, hau]
      exact ih h (fun x hx => huniq x (List.mem_cons_of_mem _ hx))

/-- Unfolding of `updatePOSSystemStatus` at status "approved". -/
theorem updatePOSSystemStatus_approved (s : Store) (id : String) (ab : Option String)
    (now : Nat) (sys : POSSystem)
    (h : s.posSystems.find? (fun x => x.id == id) = some sys) :
    updatePOSSystemStatus s id "approved" ab now =
      ({ s with posSystems := updateOne s.posSystems (fun x => x.id == id) (approveUpdate ab now) },
        some (approveUpdate ab now sys)) := by
  unfold updatePOSSystemStatus
  rw [h]
  rfl

/-- Unfolding of `updatePOSSystemStatus` at status "rejected". -/
theorem updatePOSSystemStatus_rejected (s : Store) (id : String) (ab : Option String)
    (now : Nat) (sys : POSSystem)
    (h : s.posSystems.find? (fun x => x.id == id) = some sys) :
    updatePOSSystemStatus s id "rejected" ab now =
      ({ s with posSystems := updateOne s.posSystems (fun x => x.id == id) rejectUpdate },
        some (rejectUpdate sys)) := by
  unfold updatePOSSystemStatus
  rw [h]
  rfl

/-- Unfolding of the checkout route when the decrement loop fails. -/
theorem postTransaction_eq_fail (s : Store) (pid : String) (body : CheckoutRequest)
    (txId : String) (now : Nat) (nm : String)
    (hp : (processItems s body.items).2 = some nm) :
    postTransaction s pid body txId now =
      ((processItems s body.items).1, CheckoutResult.insufficientStock nm) := by
  unfold postTransaction
  simp only [hp]

/-- Unfolding of the checkout route when all decrements succeed. -/
theorem postTransaction_eq_ok (s : Store) (pid : String) (body : CheckoutRequest)
    (txId : String) (now : Nat)
    (hp : (processItems s body.items).2 = none) :
    postTransaction s pid body txId now =
      ({ (processItems s body.items).1 with
          transactions := (processItems s body.items).1.transactions ++
            [mkTransaction pid body txId now] },
        CheckoutResult.created (mkTransaction pid body txId now)) := by
  unfold postTransaction
  simp only [hp, createTransaction]

/-- The stock-decrement loop preserves non-negative stocks. -/
theorem processItems_nonneg (items : List TransactionItem) (s : Store)
    (h : ∀ p ∈ s.products, 0 ≤ p.stock) :
    ∀ p ∈ (processItems s items).1.products, 0 ≤ p.stock := by
  induction items generalizing s with
  | nil => exact h
  | cons it rest ih =>
    rw [processItems]
    cases hr : (reduceProductStock s it.productId it.quantity).2 with
    | true =>
      rw [if_pos rfl]
      exact ih _ (reduceProductStock_nonneg s it.productId it.quantity h)
    | false =>
      rw [if_neg (by decide)]
      exact reduceProductStock_nonneg s it.productId it.quantity h

end POSSpec


namespace POSSpec

/-- Failure analysis of the checkout loop: if the loop reports a failing
item name, the cart splits as `pre ++ it :: post` where every decrement of
`pre` succeeded, `it` is the first failing item, and the loop's final store
is exactly the store reached after the successful decrements of `pre`
followed by the failed attempt on `it` — nothing is rolled back. -/
theorem processItems_fail (items : List TransactionItem) (s : Store) (name : String)
    (h : (processItems s items).2 = some name) :
    ∃ pre it post, items = pre ++ it :: post ∧ name = it.name ∧
      decrementsSucceed s pre = true ∧
      (reduceProductStock (applyDecrements s pre) it.productId it.quantity).2 = false ∧
      (processItems s items).1 =
        (reduceProductStock (applyDecrements s pre) it.productId it.quantity).1 := by
  induction items generalizing s with
  | nil => simp [processItems] at h
  | cons it rest ih =>
    rw [processItems] at h ⊢
    cases hr : (reduceProductStock s it.productId it.quantity).2 with
    | true =>
      rw [hr, if_pos rfl] at h
      rw [if_pos rfl]
      rcases ih (reduceProductStock s it.productId it.quantity).1 h with
        ⟨pre, it2, post, hsplit, hname, hpre, hfail, hstore⟩
      refine ⟨it :: pre, it2, post, ?_, hname, ?_, ?_, ?_⟩
      · rw [List.cons_append, hsplit]
      · rw [decrementsSucceed, hr, hpre]
        rfl
      · rw [applyDecrements]
        exact hfail
      · rw [applyDecrements]
        exact hstore
    | false =>
      rw [hr, if_neg (by decide)] at h
      rw [if_neg (by decide)]
      refine ⟨[], it, rest, rfl, ?_, rfl, ?_, rfl⟩
      · simpa using h.symm
      · exact hr

/-- Reduction of the pos deserializer once the id lookup is known. -/
theorem deserializePOSUser_eq (s : Store) (id : String) (sys : POSSystem)
    (h : getPOSSystem s id = some sys) :
    deserializePOSUser s id = if sys.status == "approved" then some sys else none := by
  unfold deserializePOSUser
  rw [h]

/-- Reduction of the pos login strategy once the username lookup is known. -/
theorem posLogin_eq (compare : String → String → Bool) (s : Store)
    (username password : String) (sys : POSSystem)
    (h : getPOSSystemByUsername s username = some sys) :
    posLogin compare s username password =
      if sys.status != "approved" then LoginResult.failure "POS system not approved"
      else if compare password sys.password then LoginResult.success sys.id
      else LoginResult.failure "Invalid username or password" := by
  unfold posLogin
  rw [h]

/-- C1 (corrected): when some line item's conditional stock decrement fails,
checkout returns the insufficient-stock error naming the offending product
and no Transaction record is created; however decrements already applied to
earlier items of the same request are NOT rolled back — the final store is
exactly the store after the successful decrements of the preceding items
followed by the failed attempt. -/
theorem checkout_aborts_without_rollback (s : Store) (pid : String) (body : CheckoutRequest)
    (txId : String) (now : Nat) (name : String)
    (h : (postTransaction s pid body txId now).2 = CheckoutResult.insufficientStock name) :
    (postTransaction s pid body txId now).1.transactions = s.transactions ∧
    ∃ pre it post, body.items = pre ++ it :: post ∧ name = it.name ∧
      decrementsSucceed s pre = true ∧
      (reduceProductStock (applyDecrements s pre) it.productId it.quantity).2 = false ∧
      (postTransaction s pid body txId now).1 =
        (reduceProductStock (applyDecrements s pre) it.productId it.quantity).1 := by
  rcases hp : (processItems s body.items).2 with _ | nm
  · rw [postTransaction_eq_ok s pid body txId now hp] at h
    exact absurd h (by simp)
  · rw [postTransaction_eq_fail s pid body txId now nm hp] at h
    have h2 : CheckoutResult.insufficientStock nm = CheckoutResult.insufficientStock name := h
    injection h2 with h2
    subst h2
    rcases processItems_fail body.items s nm hp with ⟨pre, it, post, hsp, hn, hpre, hf, hst⟩
    rw [postTransaction_eq_fail s pid body txId now nm hp]
    exact ⟨processItems_transactions body.items s, pre, it, post, hsp, hn, hpre, hf, hst⟩

/-- Witness for C1: a concrete failing two-item checkout. -/
theorem checkout_aborts_without_rollback_witness :
    ((postTransaction storeAB "b1" cartAB "t9" 3).2 =
        CheckoutResult.insufficientStock "ProductB") ∧
    ((postTransaction storeAB "b1" cartAB "t9" 3).1.transactions = storeAB.transactions ∧
     ∃ pre it post, cartAB.items = pre ++ it :: post ∧ "ProductB" = it.name ∧
       decrementsSucceed storeAB pre = true ∧
       (reduceProductStock (applyDecrements storeAB pre) it.productId it.quantity).2 = false ∧
       (postTransaction storeAB "b1" cartAB "t9" 3).1 =
         (reduceProductStock (applyDecrements storeAB pre) it.productId it.quantity).1) :=
  ⟨by decide, checkout_aborts_without_rollback storeAB "b1" cartAB "t9" 3 "ProductB" (by decide)⟩

/-- Counterexample to C1 as stated: this failing checkout returns the
insufficient-stock error and creates no Transaction, yet ProductA's stock
has been decremented from 5 to 3 and stays decremented. -/
theorem checkout_failure_changes_stock :
    (postTransaction storeAB "b1" cartAB "t1" 3).2 =
      CheckoutResult.insufficientStock "ProductB" ∧
    (postTransaction storeAB "b1" cartAB "t1" 3).1.transactions = storeAB.transactions ∧
    storeAB.products.map (fun p => p.stock) = [5, 0] ∧
    (postTransaction storeAB "b1" cartAB "t1" 3).1.products.map (fun p => p.stock) =
      [3, 0] := by decide

/-- C2 (corrected): the money fields of a persisted transaction are exactly
the client-supplied strings of the request body — the server copies them
verbatim instead of recomputing or cross-checking them. -/
theorem checkout_persists_client_totals (s : Store) (pid : String) (body : CheckoutRequest)
    (txId : String) (now : Nat) (t : Transaction)
    (h : (postTransaction s pid body txId now).2 = CheckoutResult.created t) :
    t.subtotal = body.subtotal ∧ t.tax = body.tax ∧ t.total = body.total ∧
    t.items = body.items ∧ t.receiptNumber = body.receiptNumber ∧
    t.paymentMethod = body.paymentMethod := by
  rcases hp : (processItems s body.items).2 with _ | nm
  · rw [postTransaction_eq_ok s pid body txId now hp] at h
    have h2 : CheckoutResult.created (mkTransaction pid body txId now) =
        CheckoutResult.created t := h
    injection h2 with h2
    subst h2
    exact ⟨rfl, rfl, rfl, rfl, rfl, rfl⟩
  · rw [postTransaction_eq_fail s pid body txId now nm hp] at h
    exact absurd h (by simp)

/-- Witness for C2: a successful checkout with client-chosen totals. -/
theorem checkout_persists_client_totals_witness :
    ((postTransaction storeAB "b1" cartOverpriced "t4" 6).2 =
        CheckoutResult.created (mkTransaction "b1" cartOverpriced "t4" 6)) ∧
    ((mkTransaction "b1" cartOverpriced "t4" 6).subtotal = cartOverpriced.subtotal ∧
     (mkTransaction "b1" cartOverpriced "t4" 6).tax = cartOverpriced.tax ∧
     (mkTransaction "b1" cartOverpriced "t4" 6).total = cartOverpriced.total ∧
     (mkTransaction "b1" cartOverpriced "t4" 6).items = cartOverpriced.items ∧
     (mkTransaction "b1" cartOverpriced "t4" 6).receiptNumber = cartOverpriced.receiptNumber ∧
     (mkTransaction "b1" cartOverpriced "t4" 6).paymentMethod = cartOverpriced.paymentMethod) :=
  ⟨by decide,
   checkout_persists_client_totals storeAB "b1" cartOverpriced "t4" 6 _ (by decide)⟩

/-- Counterexample to C2 as stated: a checkout whose client-declared
subtotal is 999.00 while Σ(unitPrice × quantity) over its items is 4.00 is
persisted with subtotal 999.00 — the server does not recompute. -/
theorem checkout_trusts_client_subtotal :
    (postTransaction storeAB "b1" cartOverpriced "t2" 3).2 =
      CheckoutResult.created (mkTransaction "b1" cartOverpriced "t2" 3) ∧
    (mkTransaction "b1" cartOverpriced "t2" 3).subtotal = "999.00" ∧
    moneyStringOfCents (specSubtotalCents cartOverpriced.items) = "4.00" ∧
    (mkTransaction "b1" cartOverpriced "t2" 3).subtotal ≠
      moneyStringOfCents (specSubtotalCents cartOverpriced.items) := by decide

/-- C3 (corrected): the checkout path can only preserve stock
non-negativity — every conditional decrement keeps `stock ≥ 0` — so any
store whose products all have non-negative stock still has that property
after a checkout.  (The direct overwrite endpoint breaks the claimed
invariant; see the counterexample.) -/
theorem checkout_preserves_nonneg (s : Store) (pid : String) (body : CheckoutRequest)
    (txId : String) (now : Nat)
    (h : ∀ p ∈ s.products, 0 ≤ p.stock) :
    ∀ p ∈ (postTransaction s pid body txId now).1.products, 0 ≤ p.stock := by
  rcases hp : (processItems s body.items).2 with _ | nm
  · rw [postTransaction_eq_ok s pid body txId now hp]
    exact processItems_nonneg body.items s h
  · rw [postTransaction_eq_fail s pid body txId now nm hp]
    exact processItems_nonneg body.items s h

/-- Witness for C3: the fixture store keeps non-negative stocks through a
checkout. -/
theorem checkout_preserves_nonneg_witness :
    (∀ p ∈ storeAB.products, 0 ≤ p.stock) ∧
    (∀ p ∈ (postTransaction storeAB "b1" cartAB "t7" 9).1.products, 0 ≤ p.stock) :=
  ⟨by decide, checkout_preserves_nonneg storeAB "b1" cartAB "t7" 9 (by decide)⟩

/-- Counterexample to C3 as stated: the stock-overwrite endpoint accepts a
negative value from its owner and leaves the product with stock −5. -/
theorem stock_overwrite_goes_negative :
    (putProductStock storeAB "b1" "pA" (-5)).2 = some { prodA with stock := -5 } ∧
    ¬ (∀ p ∈ (putProductStock storeAB "b1" "pA" (-5)).1.products, 0 ≤ p.stock) := by decide

/-- C4 (confirmed): a POS principal is honored only while its stored status
is approved: login of a business whose stored status is not "approved"
fails with "POS system not approved" for every password comparator;
per-request deserialization of such a business yields no principal; and
after a revocation (status set to "rejected") the very next
deserialization of that business yields no principal. -/
theorem pos_principal_requires_approved (compare : String → String → Bool)
    (s s2 : Store) (sys sys2 : POSSystem) (password : String) (now : Nat)
    (hu : getPOSSystemByUsername s sys.username = some sys)
    (hi : getPOSSystem s sys.id = some sys)
    (hs : sys.status ≠ "approved")
    (h2 : s2.posSystems.find? (fun x => x.id == sys2.id) = some sys2) :
    posLogin compare s sys.username password =
      LoginResult.failure "POS system not approved" ∧
    deserializePOSUser s sys.id = none ∧
    deserializePOSUser (updatePOSSystemStatus s2 sys2.id "rejected" none now).1
      sys2.id = none := by
  refine ⟨?_, ?_, ?_⟩
  · rw [posLogin_eq compare s sys.username password sys hu, if_pos (by simp [hs])]
  · rw [deserializePOSUser_eq s sys.id sys hi, if_neg (by simp [hs])]
  · rw [updatePOSSystemStatus_rejected s2 sys2.id none now sys2 h2]
    show deserializePOSUser
        ({ s2 with posSystems :=
            updateOne s2.posSystems (fun x => x.id == sys2.id) rejectUpdate })
        sys2.id = none
    have hfind : getPOSSystem
        ({ s2 with posSystems :=
            updateOne s2.posSystems (fun x => x.id == sys2.id) rejectUpdate })
        sys2.id = some (rejectUpdate sys2) := by
      unfold getPOSSystem
      exact find_id_updateOne_pos s2.posSystems sys2.id rejectUpdate sys2 h2 rfl
    rw [deserializePOSUser_eq _ _ _ hfind, if_neg (by simp [rejectUpdate])]

/-- Witness for C4: the pending fixture business cannot log in or
deserialize, and the approved fixture business is deauthenticated right
after a revocation. -/
theorem pos_principal_requires_approved_witness :
    (getPOSSystemByUsername storePending bizPending.username = some bizPending ∧
     getPOSSystem storePending bizPending.id = some bizPending ∧
     bizPending.status ≠ "approved" ∧
     storeAB.posSystems.find? (fun x => x.id == bizApproved.id) = some bizApproved) ∧
    (posLogin (fun a b => a == b) storePending bizPending.username "hashedpw" =
        LoginResult.failure "POS system not approved" ∧
     deserializePOSUser storePending bizPending.id = none ∧
     deserializePOSUser
        (updatePOSSystemStatus storeAB bizApproved.id "rejected" none 7).1
        bizApproved.id = none) :=
  ⟨⟨by decide, by decide, by decide, by decide⟩,
   pos_principal_requires_approved (fun a b => a == b) storePending storeAB bizPending
     bizApproved "hashedpw" 7 (by decide) (by decide) (by decide) (by decide)⟩

/-- C5 (corrected): deleting a POS business removes only the business
record itself — the products and transactions collections are untouched, so
records owned by the deleted business remain as orphans; the route reports
a deletion exactly when a business with that id existed. -/
theorem deletePOSSystem_no_cascade (s : Store) (id : String) :
    (deletePOSSystem s id).1.products = s.products ∧
    (deletePOSSystem s id).1.transactions = s.transactions ∧
    ((deletePOSSystem s id).2 = true ↔ ∃ x ∈ s.posSystems, x.id = id) := by
  refine ⟨rfl, rfl, ?_⟩
  show (deleteOne s.posSystems (fun x => x.id == id)).2 = true ↔ _
  rw [deleteOne_snd_iff]
  simp

/-- Counterexample to C5 as stated: after deleting business "b1" its
product and transaction records are still present (orphans remain). -/
theorem deletePOSSystem_leaves_orphans :
    (deletePOSSystem storeAB "b1").2 = true ∧
    (deletePOSSystem storeAB "b1").1.posSystems = [] ∧
    (deletePOSSystem storeAB "b1").1.products.filter (fun p => p.posId == "b1") =
      [prodA, prodB] ∧
    (deletePOSSystem storeAB "b1").1.transactions.filter (fun t => t.posId == "b1") =
      [txOld] := by decide

/-- C6 (code_bug): PUT /api/pos/currency responds "Currency symbol updated
successfully" but never stores the supplied symbol: on the approved fixture
business a request with symbol "X" leaves currencySymbol at "P" and instead
rewrites approvedAt to the request time and clears approvedBy. -/
theorem currency_route_skips_currency_update :
    (putCurrency storeAB "b1" "X" 99).2 = CurrencyResult.ok ∧
    getPOSSystem (putCurrency storeAB "b1" "X" 99).1 "b1" =
      some { bizApproved with approvedAt := some 99, approvedBy := none } ∧
    (getPOSSystem (putCurrency storeAB "b1" "X" 99).1 "b1").map
      (fun y => y.currencySymbol) = some "P" := by decide

/-- C7 (corrected): the server does not reject an empty cart: a checkout
whose items list is empty succeeds, creates a Transaction with no items and
the client-supplied money strings, and changes no stock (the only
empty-cart guard lives in the client UI). -/
theorem checkout_accepts_empty_cart (s : Store) (pid : String) (body : CheckoutRequest)
    (txId : String) (now : Nat)
    (h : body.items = []) :
    (postTransaction s pid body txId now).2 =
      CheckoutResult.created (mkTransaction pid body txId now) ∧
    (postTransaction s pid body txId now).1.products = s.products ∧
    (postTransaction s pid body txId now).1.posSystems = s.posSystems ∧
    (postTransaction s pid body txId now).1.transactions =
      s.transactions ++ [mkTransaction pid body txId now] := by
  have hp : (processItems s body.items).2 = none := by rw [h]; rfl
  rw [postTransaction_eq_ok s pid body txId now hp]
  rw [h]
  exact ⟨rfl, rfl, rfl, rfl⟩

/-- Witness for C7: the empty-cart fixture request. -/
theorem checkout_accepts_empty_cart_witness :
    cartEmpty.items = [] ∧
    ((postTransaction storeAB "b1" cartEmpty "t5" 7).2 =
        CheckoutResult.created (mkTransaction "b1" cartEmpty "t5" 7) ∧
     (postTransaction storeAB "b1" cartEmpty "t5" 7).1.products = storeAB.products ∧
     (postTransaction storeAB "b1" cartEmpty "t5" 7).1.posSystems = storeAB.posSystems ∧
     (postTransaction storeAB "b1" cartEmpty "t5" 7).1.transactions =
       storeAB.transactions ++ [mkTransaction "b1" cartEmpty "t5" 7]) :=
  ⟨rfl, checkout_accepts_empty_cart storeAB "b1" cartEmpty "t5" 7 rfl⟩

/-- Counterexample to C7 as stated: an empty-cart checkout is not rejected;
it persists a Transaction. -/
theorem empty_cart_not_rejected :
    (postTransaction storeAB "b1" cartEmpty "t3" 4).2 =
      CheckoutResult.created (mkTransaction "b1" cartEmpty "t3" 4) ∧
    (postTransaction storeAB "b1" cartEmpty "t3" 4).1.transactions =
      storeAB.transactions ++ [mkTransaction "b1" cartEmpty "t3" 4] := by decide

/-- C8 (confirmed): approving a business whose status is pending (or
rejected) sets status to "approved", approvedAt to the approval time and
approvedBy to the approving admin's id, and a subsequent login with that
business's correct credentials succeeds (username uniqueness among the
stored businesses is assumed, as the schema declares the column unique). -/
theorem approve_sets_fields_then_login (compare : String → String → Bool)
    (s : Store) (id adminId password : String) (sys : POSSystem) (now : Nat)
    (h1 : s.posSystems.find? (fun x => x.id == id) = some sys)
    (_hstat : sys.status = "pending" ∨ sys.status = "rejected")
    (huniq : ∀ x ∈ s.posSystems, x.username = sys.username → x.id = id)
    (hcmp : compare password sys.password = true) :
    (approvePOSSystem s id adminId now).2 = some (approveUpdate (some adminId) now sys) ∧
    (approveUpdate (some adminId) now sys).status = "approved" ∧
    (approveUpdate (some adminId) now sys).approvedAt = some now ∧
    (approveUpdate (some adminId) now sys).approvedBy = some adminId ∧
    posLogin compare (approvePOSSystem s id adminId now).1 sys.username password =
      LoginResult.success sys.id := by
  have heq := updatePOSSystemStatus_approved s id (some adminId) now sys h1
  refine ⟨?_, rfl, rfl, rfl, ?_⟩
  · show (updatePOSSystemStatus s id "approved" (some adminId) now).2 = _
    rw [heq]
  · show posLogin compare (updatePOSSystemStatus s id "approved" (some adminId) now).1
      sys.username password = _
    rw [heq]
    show posLogin compare
      ({ s with posSystems :=
          updateOne s.posSystems (fun x => x.id == id) (approveUpdate (some adminId) now) })
      sys.username password = _
    have hfind : getPOSSystemByUsername
        ({ s with posSystems :=
            updateOne s.posSystems (fun x => x.id == id) (approveUpdate (some adminId) now) })
        sys.username = some (approveUpdate (some adminId) now sys) := by
      unfold getPOSSystemByUsername
      exact find_username_updateOne s.posSystems id (approveUpdate (some adminId) now) sys
        h1 huniq rfl
    rw [posLogin_eq compare _ sys.username password _ hfind]
    rw [if_neg (by simp [approveUpdate])]
    rw [if_pos
      (show compare password (approveUpdate (some adminId) now sys).password = true from hcmp)]
    rfl

/-- Witness for C8: approving the pending fixture business and logging in. -/
theorem approve_sets_fields_then_login_witness :
    (storePending.posSystems.find? (fun x => x.id == "b1") = some bizPending ∧
     (bizPending.status = "pending" ∨ bizPending.status = "rejected") ∧
     (∀ x ∈ storePending.posSystems, x.username = bizPending.username → x.id = "b1") ∧
     ((fun a b => a == b) "hashedpw" bizPending.password) = true) ∧
    ((approvePOSSystem storePending "b1" "admin-9" 5).2 =
        some (approveUpdate (some "admin-9") 5 bizPending) ∧
     (approveUpdate (some "admin-9") 5 bizPending).status = "approved" ∧
     (approveUpdate (some "admin-9") 5 bizPending).approvedAt = some 5 ∧
     (approveUpdate (some "admin-9") 5 bizPending).approvedBy = some "admin-9" ∧
     posLogin (fun a b => a == b) (approvePOSSystem storePending "b1" "admin-9" 5).1
       bizPending.username "hashedpw" = LoginResult.success bizPending.id) :=
  ⟨⟨by decide, Or.inl rfl, by decide, by decide⟩,
   approve_sets_fields_then_login (fun a b => a == b) storePending "b1" "admin-9"
     "hashedpw" bizPending 5 (by decide) (Or.inl rfl) (by decide) (by decide)⟩

/-- C9 (confirmed): every transaction persisted by checkout carries the
authenticated principal's id as posId — the client-supplied posId of the
request body is overwritten — and the new record is appended to the
ledger. -/
theorem transaction_posId_is_principal (s : Store) (pid : String) (body : CheckoutRequest)
    (txId : String) (now : Nat) (t : Transaction)
    (h : (postTransaction s pid body txId now).2 = CheckoutResult.created t) :
    t.posId = pid ∧
    (postTransaction s pid body txId now).1.transactions = s.transactions ++ [t] := by
  rcases hp : (processItems s body.items).2 with _ | nm
  · rw [postTransaction_eq_ok s pid body txId now hp] at h ⊢
    have h2 : CheckoutResult.created (mkTransaction pid body txId now) =
        CheckoutResult.created t := h
    injection h2 with h2
    subst h2
    refine ⟨rfl, ?_⟩
    show (processItems s body.items).1.transactions ++ [mkTransaction pid body txId now] =
      s.transactions ++ [mkTransaction pid body txId now]
    rw [processItems_transactions body.items s]
  · rw [postTransaction_eq_fail s pid body txId now nm hp] at h
    exact absurd h (by simp)

/-- Witness for C9: a checkout whose body claims posId "victim-business" is
persisted under the authenticated business "b1". -/
theorem transaction_posId_is_principal_witness :
    ((postTransaction storeAB "b1" cartForged "t6" 8).2 =
        CheckoutResult.created (mkTransaction "b1" cartForged "t6" 8)) ∧
    cartForged.posId = some "victim-business" ∧
    ((mkTransaction "b1" cartForged "t6" 8).posId = "b1" ∧
     (postTransaction storeAB "b1" cartForged "t6" 8).1.transactions =
       storeAB.transactions ++ [mkTransaction "b1" cartForged "t6" 8]) :=
  ⟨by decide, by decide,
   transaction_posId_is_principal storeAB "b1" cartForged "t6" 8 _ (by decide)⟩

/-- C10 (corrected): for an existing product with non-negative stock and a
quantity q ≤ 0 the `stock ≥ q` guard always matches, but the reported
success is `modifiedCount > 0`, i.e. `q ≠ 0`: a strictly negative quantity
reports success and increases the stock by −q, while a zero quantity
matches yet reports failure (and checkout then rejects the order as
insufficient stock). -/
theorem reduceProductStock_nonpositive_quantity (s : Store) (pid : String) (q : Int)
    (p : Product)
    (hfind : s.products.find? (fun x => x.id == pid) = some p)
    (hstock : 0 ≤ p.stock) (hq : q ≤ 0) :
    (reduceProductStock s pid q).2 = (q != 0) ∧
    (reduceProductStock s pid q).1.products.find? (fun x => x.id == pid) =
      some { p with stock := p.stock - q } := by
  have hqs : q ≤ p.stock := le_trans hq hstock
  have h1 := find_guard_of_find_id s.products pid q p hfind hqs
  constructor
  · unfold reduceProductStock
    rw [h1]
  · unfold reduceProductStock
    rw [h1]
    exact find_id_updateOne_guard s.products pid q p hfind hqs

/-- Witness for C10: decrementing by −3 succeeds and raises the stock from
5 to 8. -/
theorem reduceProductStock_nonpositive_quantity_witness :
    (storeAB.products.find? (fun x => x.id == "pA") = some prodA ∧
     (0 : Int) ≤ prodA.stock ∧ (-3 : Int) ≤ 0) ∧
    ((reduceProductStock storeAB "pA" (-3)).2 = ((-3 : Int) != 0) ∧
     (reduceProductStock storeAB "pA" (-3)).1.products.find? (fun x => x.id == "pA") =
       some { prodA with stock := prodA.stock - (-3) }) :=
  ⟨⟨by decide, by decide, by decide⟩,
   reduceProductStock_nonpositive_quantity storeAB "pA" (-3) prodA
     (by decide) (by decide) (by decide)⟩

/-- Counterexample to C10 as stated: for the existing product "pA" (stock
5) a zero quantity matches the guard but modifies nothing, so the call
reports failure, not success, and the store is unchanged. -/
theorem zero_quantity_decrement_reports_failure :
    getProduct storeAB "pA" = some prodA ∧
    (0 : Int) ≤ prodA.stock ∧
    reduceProductStock storeAB "pA" 0 = (storeAB, false) := by decide

end POSSpec
